import Mathlib

/-!
Verification of the fsearch application glue (src/fsearch.c, src/fsearch_file_utils.c).

The application state relevant to the database coordination claims is embedded as
`AppState` (the fields of `struct _FsearchApplication` used by the database logic),
and the C functions acting on it are transcribed as pure state transformers.
The database core (`db_new`, `db_scan`, `db_load`, `db_save`, `db_get_num_entries`)
is not part of the two source files; where a claim depends on it, it is modelled
from the specification (see the individual doc comments).
-/

namespace Fsearch

/-- Model of `FsearchDatabase`: a reference-counted container identified by its
allocation (`id` stands for the pointer identity) owning at most one entry store.
Modelled from the spec: the Database component owns one immutable Entry Store at a
time; an entry store is abstracted as the list of its entries. -/
structure FsearchDatabase where
  id : Nat
  store : Option (List Nat)
deriving DecidableEq

/-- Modelled from the spec: `db_new` (database core, not under src/) creates a fresh,
empty database; the configuration arguments (index locations, exclusion rules) do not
affect the glue-level claims and are omitted. `freshId` stands for the identity of the
new allocation. -/
def db_new (freshId : Nat) : FsearchDatabase :=
  { id := freshId, store := none }

/-- Modelled from the spec: `db_get_num_entries` (database core, not under src/)
returns the aggregate entry count of the database's store. -/
def db_get_num_entries (db : FsearchDatabase) : Nat :=
  (db.store.getD []).length

/-- Modelled from the spec: the Serializer's binary encoding of a store — a header
carrying the total entry count followed by the entries (§4.4 of the spec). -/
def db_serialize (store : List Nat) : List Nat :=
  store.length :: store

/-- Outcome of a `db_save` call: whether it reported success and what was written
to the destination (`none` = nothing was written). -/
structure SaveOutcome where
  ok : Bool
  written : Option (List Nat)
deriving DecidableEq

/-- Modelled from the spec: `db_save` (database core, not under src/) serializes the
store currently published in the given database; if no store is published it is a
no-op reporting success with nothing to save (§4.5 of the spec). -/
def db_save (db : FsearchDatabase) : SaveOutcome :=
  match db.store with
  | some st => { ok := true, written := some (db_serialize st) }
  | none => { ok := true, written := none }

/-- The two kinds of database requests (`FsearchDatabaseActionType` in fsearch.c). -/
inductive FsearchDatabaseActionType
  | scan
  | load
deriving DecidableEq

/-- The application state fields of `struct _FsearchApplication` that the database
coordination logic touches: the published database reference `db`, the
`num_database_update_active` counter (a C `int`, hence `Int`), the enabled state of
the `update_database` and `cancel_update_database` actions, the shared
`db_thread_cancellable`, and the `is_shutting_down` flag. -/
structure AppState where
  db : Option FsearchDatabase
  numDatabaseUpdateActive : Int
  updateActionEnabled : Bool
  cancelActionEnabled : Bool
  cancellableCancelled : Bool
  isShuttingDown : Bool
deriving DecidableEq

/-- The state right after `fsearch_application_startup`: no database published
(`fsearch->db = NULL`, line 641), no update active, a fresh (non-cancelled)
cancellable (line 635), both actions in their default enabled state, and not
shutting down (line 686). -/
def initial_app_state : AppState :=
  { db := none
    numDatabaseUpdateActive := 0
    updateActionEnabled := true
    cancelActionEnabled := true
    cancellableCancelled := false
    isShuttingDown := false }

/-- Transcription of `on_database_update_finished` (fsearch.c lines 172–199), the
idle handler that receives the database built by a finished scan/load request:
if the app is shutting down the new database is dropped and the state untouched;
otherwise, under the state lock, the new database replaces the published one unless
the cancellable was cancelled (in which case the new one is discarded), the
cancellable is reset, the active counter is decremented, and when it reaches zero
the `update_database` action is re-enabled and `cancel_update_database` disabled.
The handler never learns whether the scan/load succeeded — only the database
pointer is handed to it. -/
def on_database_update_finished (s : AppState) (db : FsearchDatabase) : AppState :=
  if s.isShuttingDown then
    s
  else
    let published := if s.cancellableCancelled then s.db else some db
    let counter := s.numDatabaseUpdateActive - 1
    { s with
      db := published
      cancellableCancelled := false
      numDatabaseUpdateActive := counter
      updateActionEnabled := if counter = 0 then true else s.updateActionEnabled
      cancelActionEnabled := if counter = 0 then false else s.cancelActionEnabled }

/-- Transcription of the state effects of `database_scan_or_load_enqueue`
(fsearch.c lines 264–293): disable `update_database`, enable
`cancel_update_database`, reset the cancellable, increment the active counter and
push a work item onto the pool (the pool itself is modelled separately as
`DbPool`). Note that none of this happens under the state mutex. -/
def database_scan_or_load_enqueue (s : AppState) : AppState :=
  { s with
    updateActionEnabled := false
    cancelActionEnabled := true
    cancellableCancelled := false
    numDatabaseUpdateActive := s.numDatabaseUpdateActive + 1 }

/-- Transcription of `action_cancel_update_database_activated` (fsearch.c lines
505–509): cancel the shared cancellable. -/
def action_cancel_update_database (s : AppState) : AppState :=
  { s with cancellableCancelled := true }

/-- Transcription of `database_pool_func` (fsearch.c lines 301–331): the worker
creates a fresh database via `db_new` (under the state lock), runs the update
function on it (`database_scan_and_save` or `database_load`, abstracted as
`update_func` returning the filled database and its success result), and then hands
the database to the finished callback — which runs `on_database_update_finished` —
regardless of whether the update function succeeded: the success result is dropped. -/
def database_pool_func (s : AppState) (freshId : Nat)
    (update_func : FsearchDatabase → FsearchDatabase × Bool) : AppState :=
  on_database_update_finished s (update_func (db_new freshId)).1

/-- Result of the `database_load` glue: the (possibly unchanged) database, the
`db_load` result, and whether a fresh scan request was enqueued as fallback. -/
structure LoadOutcome where
  db : FsearchDatabase
  loadOk : Bool
  rescanEnqueued : Bool
deriving DecidableEq

/-- Transcription of `database_load` (fsearch.c lines 251–262): `db_load` either
fills the database from the on-disk store (`dbFileContents = some st`, modelled
from the spec: a load returns a fully validated store or fails without installing
anything, §4.4) or fails (`dbFileContents = none`); when it fails and
`update_database_on_launch` is not set, a rescan is enqueued via
`on_database_scan_enqueue`. -/
def database_load (db : FsearchDatabase) (dbFileContents : Option (List Nat))
    (update_database_on_launch : Bool) : LoadOutcome :=
  match dbFileContents with
  | some st => { db := { db with store := some st }, loadOk := true, rescanEnqueued := false }
  | none => { db := db, loadOk := false, rescanEnqueued := !update_database_on_launch }

/-- Transcription of `database_scan_and_save` (fsearch.c lines 236–249): scan into
the fresh database (`scanResult` models the `db_scan` outcome: the scanned store on
success, `none` on failure) and, when the scan succeeded and the cancellable is not
cancelled, save the scanned database. Returns the database, the scan result, and
the `db_save` outcome (`none` when no save was attempted). -/
def database_scan_and_save (db : FsearchDatabase) (scanResult : Option (List Nat))
    (cancelled : Bool) : FsearchDatabase × Bool × Option SaveOutcome :=
  match scanResult with
  | some st =>
    let scanned : FsearchDatabase := { db with store := some st }
    if cancelled then (scanned, true, none) else (scanned, true, some (db_save scanned))
  | none => (db, false, none)

/-- Transcription of the database requests issued by `fsearch_application_activate`
(fsearch.c lines 729–733): always a load request, followed by a scan request when
`update_database_on_launch` is set. -/
def fsearch_application_activate_enqueues
    (update_database_on_launch : Bool) : List FsearchDatabaseActionType :=
  if update_database_on_launch then [.load, .scan] else [.load]

/-- Transcription of `fsearch_application_get_num_db_entries` (fsearch.c lines
1013–1017): `return fsearch->db ? db_get_num_entries(fsearch->db) : 0;`. -/
def fsearch_application_get_num_db_entries (s : AppState) : Nat :=
  match s.db with
  | some db => db_get_num_entries db
  | none => 0

/-- The modulus of a C `guint` (32-bit unsigned), used for the `seconds` local in
`database_auto_update_init`. -/
def guintMod : Nat := 2 ^ 32

/-- Transcription of `database_auto_update_init` (fsearch.c lines 116–132): when
`update_database_every` is set, schedule a periodic update every
`hours * 3600 + minutes * 60` seconds (computed in a `guint`), clamped up to a
minimum of 60 seconds; otherwise schedule nothing. Returns the scheduled period
in seconds, or `none` when periodic updates are disabled. -/
def database_auto_update_init (update_database_every : Bool)
    (hours minutes : Nat) : Option Nat :=
  if update_database_every then
    let seconds := (hours * 3600 + minutes * 60) % guintMod
    some (if seconds < 60 then 60 else seconds)
  else
    none

/-- Folding a sequence of completed requests, in completion order, through the
`on_database_update_finished` idle handler (the handler runs on the main loop, so
completions are processed one at a time in completion order). -/
def process_finishes (s : AppState) (ds : List FsearchDatabase) : AppState :=
  ds.foldl on_database_update_finished s

/-- The main-loop events that touch the database coordination state: an enqueue of
a scan/load request, a cancel of the shared cancellable, and the idle handler of a
finished request delivering its database. -/
inductive AppEvent
  | enqueue
  | cancel
  | finish (db : FsearchDatabase)
deriving DecidableEq

/-- One main-loop step of the database coordination state. -/
def app_step (s : AppState) : AppEvent → AppState
  | .enqueue => database_scan_or_load_enqueue s
  | .cancel => action_cancel_update_database s
  | .finish db => on_database_update_finished s db

/-- Run a trace of main-loop events. -/
def app_run (s : AppState) (es : List AppEvent) : AppState :=
  es.foldl app_step s

/-- Number of enqueue events in a trace. -/
def numEnqueues : List AppEvent → Nat
  | [] => 0
  | .enqueue :: es => numEnqueues es + 1
  | _ :: es => numEnqueues es

/-- Number of finish events in a trace. -/
def numFinishes : List AppEvent → Nat
  | [] => 0
  | .finish _ :: es => numFinishes es + 1
  | _ :: es => numFinishes es

/-- A trace is well-formed when every finish event is matched by an earlier
enqueue: `pending` counts the requests enqueued but not yet finished, and a finish
may only occur while a request is pending (finished callbacks only come from
previously pushed work items). -/
def traceWF : Nat → List AppEvent → Bool
  | _, [] => true
  | pending, .enqueue :: es => traceWF (pending + 1) es
  | pending, .cancel :: es => traceWF pending es
  | pending, .finish _ :: es => decide (0 < pending) && traceWF (pending - 1) es

/-- The primitive operations on the mutex-protected shared state, as they appear in
the source: taking/releasing the state mutex, and accesses (reads or writes) to the
published-store reference `fsearch->db` and to the `num_database_update_active`
counter. -/
inductive StateOp
  | lock
  | unlock
  | dbAccess
  | counterAccess
deriving DecidableEq

/-- The shared-state operations performed by `on_database_update_finished` on its
non-shutdown path, in source order (fsearch.c lines 181–196): lock the state mutex,
clear and reassign `self->db` (two accesses), decrement and test the counter (two
accesses), unlock. -/
def on_database_update_finished_ops : List StateOp :=
  [.lock, .dbAccess, .dbAccess, .counterAccess, .counterAccess, .unlock]

/-- The shared-state operations performed by `database_scan_or_load_enqueue`
(fsearch.c lines 264–293): the counter increment at line 271 — the function never
takes the state mutex. -/
def database_scan_or_load_enqueue_ops : List StateOp :=
  [.counterAccess]

/-- The shared-state operations performed by `fsearch_application_get_num_db_entries`
(fsearch.c lines 1013–1017): a read of `fsearch->db` at line 1016, without taking
the state mutex. -/
def fsearch_application_get_num_db_entries_ops : List StateOp :=
  [.dbAccess]

/-- The shared-state operations performed by `fsearch_application_get_db`
(fsearch.c lines 1019–1023): a read of `fsearch->db` at line 1022, without taking
the state mutex. -/
def fsearch_application_get_db_ops : List StateOp :=
  [.dbAccess]

/-- The shared-state operations performed by `database_pool_func` (fsearch.c lines
301–331): it locks the mutex around `db_new` (which reads only the configuration)
and touches neither the published-store reference nor the counter itself. -/
def database_pool_func_ops : List StateOp :=
  [.lock, .unlock]

/-- Starting from lock depth `depth`, check that every access to the published-store
reference or to the counter in the operation list happens while the mutex is held
(depth positive at the access). -/
def accessesLocked : Nat → List StateOp → Bool
  | _, [] => true
  | depth, .lock :: ops => accessesLocked (depth + 1) ops
  | depth, .unlock :: ops => accessesLocked (depth - 1) ops
  | depth, .dbAccess :: ops => decide (0 < depth) && accessesLocked depth ops
  | depth, .counterAccess :: ops => decide (0 < depth) && accessesLocked depth ops

/-- All functions in the two source files that access the published-store reference
or the active-request counter. -/
def appSharedStateFunctions : List (List StateOp) :=
  [on_database_update_finished_ops,
   database_scan_or_load_enqueue_ops,
   fsearch_application_get_num_db_entries_ops,
   fsearch_application_get_db_ops,
   database_pool_func_ops]

/-- The maximum number of worker threads of the database thread pool:
`fsearch->db_pool = g_thread_pool_new(database_pool_func, app, 1, TRUE, NULL)`
(fsearch.c line 685). -/
def db_pool_max_threads : Nat := 1

/-- State of the database worker pool (`GThreadPool` with `db_pool_max_threads`
threads): all work items pushed so far in submission order, the items pushed but
not yet started (FIFO queue), the items started so far in start order, and the
number of items currently executing. -/
structure DbPool where
  pushed : List Nat
  queue : List Nat
  started : List Nat
  numRunning : Nat
deriving DecidableEq

/-- The empty pool created at startup. -/
def initial_db_pool : DbPool :=
  { pushed := [], queue := [], started := [], numRunning := 0 }

/-- The transitions of the database worker pool, following GThreadPool semantics:
a work item can be pushed at any time (appended to the FIFO queue); a worker thread
may start the item at the head of the queue, but only while fewer than
`db_pool_max_threads` items are executing; an executing item may finish. -/
inductive DbPoolStep : DbPool → DbPool → Prop
  | push (p : DbPool) (t : Nat) :
      DbPoolStep p
        { p with pushed := p.pushed ++ [t], queue := p.queue ++ [t] }
  | start (p : DbPool) (t : Nat) (rest : List Nat) :
      p.numRunning < db_pool_max_threads →
      p.queue = t :: rest →
      DbPoolStep p
        { p with queue := rest, started := p.started ++ [t],
                 numRunning := p.numRunning + 1 }
  | finish (p : DbPool) :
      0 < p.numRunning →
      DbPoolStep p { p with numRunning := p.numRunning - 1 }

/-- The pool states reachable from the empty pool. -/
inductive DbPoolReachable : DbPool → Prop
  | init : DbPoolReachable initial_db_pool
  | step {p q : DbPool} : DbPoolReachable p → DbPoolStep p q → DbPoolReachable q

/-- Model of `g_file_get_parent` on a `GFile` built from an absolute path: the path
is the list of its components (`[]` is the filesystem root, which has no parent);
any other path's parent drops the last component. -/
def g_file_get_parent (path : List String) : Option (List String) :=
  match path with
  | [] => none
  | _ => some path.dropLast

/-- What `fsearch_file_utils_open_parent_folder_with_optional_command` ends up
opening: the folder via the user-supplied command template (which also receives the
full path of the original item), or the folder via the default application. -/
inductive FolderOpenRequest
  | withCmd (folder : List String) (full : List String) (cmd : String)
  | withDefaultApp (folder : List String)
deriving DecidableEq

/-- The folder a `FolderOpenRequest` opens. -/
def openedFolder : FolderOpenRequest → List String
  | .withCmd folder _ _ => folder
  | .withDefaultApp folder => folder

/-- Transcription of `fsearch_file_utils_open_parent_folder_with_optional_command`
(fsearch_file_utils.c lines 377–404): compute the parent of the path, treating a
path with no parent (the filesystem root) as its own parent, then open that folder
either through the optional command template or through the default application. -/
def fsearch_file_utils_open_parent_folder_with_optional_command
    (path : List String) (cmd : Option String) : FolderOpenRequest :=
  let parent_path :=
    match g_file_get_parent path with
    | some parent => parent
    | none => path
  match cmd with
  | some c => .withCmd parent_path path c
  | none => .withDefaultApp parent_path

/-- Concrete state for exercising `on_database_update_finished`: a database with
entries is published, one request is active, the cancellable is not cancelled. -/
def c1_prev_db : FsearchDatabase :=
  { id := 0, store := some [10, 11, 12] }

/-- Application state with `c1_prev_db` published and one request in flight. -/
def c1_app_state : AppState :=
  { db := some c1_prev_db
    numDatabaseUpdateActive := 1
    updateActionEnabled := false
    cancelActionEnabled := true
    cancellableCancelled := false
    isShuttingDown := false }

/-- An update function modelling a failed `db_load`: it returns `false` and leaves
the freshly created database without a store (nothing was loaded). -/
def c1_failed_load : FsearchDatabase → FsearchDatabase × Bool :=
  fun db => (db, false)

/-- The finished handler never changes the shutting-down flag. -/
theorem on_finished_isShuttingDown (s : AppState) (d : FsearchDatabase) :
    (on_database_update_finished s d).isShuttingDown = s.isShuttingDown := by
  unfold on_database_update_finished
  split <;> rfl

/-- Outside shutdown, the finished handler resets the cancellable. -/
theorem on_finished_cancellable (s : AppState) (d : FsearchDatabase)
    (h : s.isShuttingDown = false) :
    (on_database_update_finished s d).cancellableCancelled = false := by
  simp [on_database_update_finished, h]

/-- Outside shutdown, when the cancellable is not cancelled the finished handler
installs the delivered database as the published one. -/
theorem on_finished_db_not_cancelled (s : AppState) (d : FsearchDatabase)
    (h1 : s.isShuttingDown = false) (h2 : s.cancellableCancelled = false) :
    (on_database_update_finished s d).db = some d := by
  simp [on_database_update_finished, h1, h2]

/-- C1 (counterexample to the claim as stated): a request that ends in failure does
NOT leave the previously published store in place. With `c1_prev_db` published and a
load request whose `db_load` fails (`c1_failed_load`) without any cancellation, the
worker still hands the freshly created empty database to the finished handler,
which installs it: the new store becomes current and the previous one is dropped. -/
theorem c1_counterexample :
    (database_pool_func c1_app_state 1 c1_failed_load).db = some (db_new 1)
    ∧ some (db_new 1) ≠ c1_app_state.db := by
  decide

/-- C1 (amended): when a request ends in cancellation, the previously published
store remains the current one, unchanged, and the newly built database is
discarded; but when a request merely fails without the cancellable being cancelled,
the newly built database still replaces the published one — the finished handler is
never told whether the scan/load succeeded. -/
theorem c1_cancel_preserves_failure_publishes (s : AppState) (d : FsearchDatabase)
    (h : s.isShuttingDown = false) :
    (s.cancellableCancelled = true → (on_database_update_finished s d).db = s.db)
    ∧ (s.cancellableCancelled = false → (on_database_update_finished s d).db = some d) := by
  constructor <;> intro hc <;> simp [on_database_update_finished, h, hc]

/-- Witness for the amended C1: a cancelled request leaves the published store of
`c1_app_state` untouched. -/
theorem c1_witness :
    (on_database_update_finished { c1_app_state with cancellableCancelled := true }
        (db_new 1)).db
      = ({ c1_app_state with cancellableCancelled := true } : AppState).db :=
  (c1_cancel_preserves_failure_publishes
    { c1_app_state with cancellableCancelled := true } (db_new 1) rfl).1 rfl

/-- C2 (confirmed, spec-modelled): `db_save` always reports success; it serializes
exactly the currently published store of the database, and when no store is
published it writes nothing. -/
theorem c2_save_contract (db : FsearchDatabase) :
    (db_save db).ok = true
    ∧ (∀ st, db.store = some st → (db_save db).written = some (db_serialize st))
    ∧ (db.store = none → (db_save db).written = none) := by
  refine ⟨?_, ?_, ?_⟩
  · cases h : db.store <;> simp [db_save, h]
  · intro st h
    simp [db_save, h]
  · intro h
    simp [db_save, h]

/-- Witness for C2: saving a database with a published store serializes that store
and reports success. -/
theorem c2_witness :
    (db_save ({ id := 3, store := some [7, 8] } : FsearchDatabase)).ok = true
    ∧ (db_save ({ id := 3, store := some [7, 8] } : FsearchDatabase)).written
        = some (db_serialize [7, 8]) :=
  ⟨(c2_save_contract { id := 3, store := some [7, 8] }).1,
   (c2_save_contract { id := 3, store := some [7, 8] }).2.1 [7, 8] rfl⟩

/-- C3 (confirmed): a failed load enqueues a fresh scan exactly when the
scan-on-launch policy is off; when the policy is on, the fallback is skipped and the
activation path has already enqueued a scan request (which supersedes it). -/
theorem c3_load_failure_fallback (db : FsearchDatabase)
    (dbFileContents : Option (List Nat)) (update_database_on_launch : Bool) :
    ((database_load db dbFileContents update_database_on_launch).rescanEnqueued
        = (!(database_load db dbFileContents update_database_on_launch).loadOk
            && !update_database_on_launch))
    ∧ (update_database_on_launch = true →
        FsearchDatabaseActionType.scan
          ∈ fsearch_application_activate_enqueues update_database_on_launch) := by
  constructor
  · cases dbFileContents <;> simp [database_load]
  · intro h
    rw [h]
    decide

/-- Witness for C3: with the scan-on-launch policy on, a failed load enqueues no
fallback scan, and the activation path itself enqueues a scan. -/
theorem c3_witness :
    ((database_load (db_new 0) none true).rescanEnqueued
        = (!(database_load (db_new 0) none true).loadOk && !true))
    ∧ FsearchDatabaseActionType.scan ∈ fsearch_application_activate_enqueues true :=
  ⟨(c3_load_failure_fallback (db_new 0) none true).1,
   (c3_load_failure_fallback (db_new 0) none true).2 rfl⟩

/-- C8 (confirmed): when no database store has been published yet,
`fsearch_application_get_num_db_entries` returns 0. -/
theorem c8_no_db_means_zero_entries (s : AppState) (h : s.db = none) :
    fsearch_application_get_num_db_entries s = 0 := by
  simp [fsearch_application_get_num_db_entries, h]

/-- Witness for C8: the freshly started application reports 0 entries. -/
theorem c8_witness : fsearch_application_get_num_db_entries initial_app_state = 0 :=
  c8_no_db_means_zero_entries initial_app_state rfl

/-- C9 (confirmed): with periodic updates enabled the rescan interval is
`hours * 3600 + minutes * 60` seconds clamped up to a minimum of 60 (as long as the
`guint` arithmetic does not overflow), and with the feature disabled nothing is
scheduled. -/
theorem c9_auto_update_interval (hours minutes : Nat)
    (hov : hours * 3600 + minutes * 60 < guintMod) :
    database_auto_update_init true hours minutes
        = some (max (hours * 3600 + minutes * 60) 60)
    ∧ database_auto_update_init false hours minutes = none := by
  constructor
  · rw [show database_auto_update_init true hours minutes
          = some (if (hours * 3600 + minutes * 60) % guintMod < 60 then 60
                  else (hours * 3600 + minutes * 60) % guintMod) from rfl,
        Nat.mod_eq_of_lt hov]
    congr 1
    split <;> omega
  · rfl

/-- Witness for C9: a half-hour period is scheduled as 1800 seconds and the minimum
clamp applies below one minute. -/
theorem c9_witness :
    database_auto_update_init true 0 30 = some (max (0 * 3600 + 30 * 60) 60)
    ∧ database_auto_update_init false 0 30 = none :=
  c9_auto_update_interval 0 30 (by decide)

/-- C10 (confirmed): when a path has no parent (the filesystem root),
`fsearch_file_utils_open_parent_folder_with_optional_command` opens the path itself
rather than failing or doing nothing, with or without a custom command. -/
theorem c10_root_is_own_parent (path : List String) (cmd : Option String)
    (h : g_file_get_parent path = none) :
    openedFolder
        (fsearch_file_utils_open_parent_folder_with_optional_command path cmd)
      = path := by
  cases cmd <;>
    simp [fsearch_file_utils_open_parent_folder_with_optional_command, h, openedFolder]

/-- Witness for C10: opening the parent of the filesystem root opens the root. -/
theorem c10_witness :
    openedFolder (fsearch_file_utils_open_parent_folder_with_optional_command [] none)
      = [] :=
  c10_root_is_own_parent [] none rfl

/-- C4 (confirmed): completed requests are processed one at a time in completion
order by the main-loop idle handler, and (absent cancellation and shutdown) each
one replaces the published reference, so after any sequence of completions the most
recently completed database is the current one — last writer wins; moreover every
access the handler makes to the published reference and the counter happens between
its lock and unlock of the state mutex. -/
theorem c4_completion_order_last_wins :
    (∀ (s : AppState) (p : List FsearchDatabase) (d : FsearchDatabase),
        s.isShuttingDown = false → s.cancellableCancelled = false →
        (process_finishes s (p ++ [d])).db = some d)
    ∧ accessesLocked 0 on_database_update_finished_ops = true := by
  constructor
  · intro s p d
    induction p generalizing s with
    | nil =>
      intro h1 h2
      exact on_finished_db_not_cancelled s d h1 h2
    | cons x xs ih =>
      intro h1 h2
      exact ih (on_database_update_finished s x)
        (by rw [on_finished_isShuttingDown]; exact h1)
        (on_finished_cancellable s x h1)
  · decide

/-- Witness for C4: processing the completions of two overlapping requests leaves
the later one as the published database. -/
theorem c4_witness :
    (process_finishes initial_app_state ([db_new 5] ++ [db_new 6])).db
      = some (db_new 6) :=
  c4_completion_order_last_wins.1 initial_app_state [db_new 5] (db_new 6) rfl rfl

/-- C5 (confirmed): in every reachable state of the database worker pool — created
with `db_pool_max_threads = 1` — at most one scan-or-load task is executing, and
the tasks started so far followed by the still-queued ones are exactly the pushed
tasks in submission order, i.e. execution is FIFO in submission order. -/
theorem c5_single_worker_fifo (p : DbPool) (h : DbPoolReachable p) :
    p.numRunning ≤ db_pool_max_threads ∧ p.started ++ p.queue = p.pushed := by
  induction h with
  | init => exact ⟨Nat.zero_le _, rfl⟩
  | step hr hs ih =>
    cases hs with
    | push t =>
      refine ⟨ih.1, ?_⟩
      simp only [← List.append_assoc, ih.2]
    | start t rest hlt hq =>
      refine ⟨hlt, ?_⟩
      have h2 := ih.2
      rw [hq] at h2
      simpa [List.append_assoc] using h2
    | finish hpos =>
      exact ⟨le_trans (Nat.sub_le _ _) ih.1, ih.2⟩

/-- Witness for C5: the pool state reached by pushing one task and starting it is
within the one-task execution bound and has started its tasks in submission order. -/
theorem c5_witness :
    ({ pushed := [0], queue := [], started := [0], numRunning := 1 } : DbPool).numRunning
        ≤ db_pool_max_threads
    ∧ ({ pushed := [0], queue := [], started := [0], numRunning := 1 } : DbPool).started
        ++ ({ pushed := [0], queue := [], started := [0], numRunning := 1 } : DbPool).queue
      = ({ pushed := [0], queue := [], started := [0], numRunning := 1 } : DbPool).pushed :=
  c5_single_worker_fifo _
    (DbPoolReachable.step
      (DbPoolReachable.step DbPoolReachable.init (DbPoolStep.push initial_db_pool 0))
      (DbPoolStep.start _ 0 [] (by decide) rfl))

/-- The invariant behind C6, generalized over the number of already-pending
requests: running a well-formed event trace leaves the active-request counter equal
to the pending requests plus the enqueues minus the finishes of the trace, and the
`update_database` action is enabled exactly when that count is zero. -/
theorem app_run_counter_invariant (es : List AppEvent) :
    ∀ (s : AppState) (pending : Nat), traceWF pending es = true →
      s.isShuttingDown = false →
      s.numDatabaseUpdateActive = (pending : Int) →
      (s.updateActionEnabled = true ↔ pending = 0) →
      (app_run s es).numDatabaseUpdateActive
          = ((pending + numEnqueues es : Nat) : Int) - (numFinishes es : Int)
      ∧ ((app_run s es).updateActionEnabled = true
          ↔ pending + numEnqueues es = numFinishes es) := by
  induction es with
  | nil =>
    intro s pending hwf hsd hcnt henb
    refine ⟨?_, ?_⟩
    · simp only [app_run, List.foldl_nil, numEnqueues, numFinishes]
      omega
    · simpa [app_run, numEnqueues, numFinishes] using henb
  | cons e es ih =>
    intro s pending hwf hsd hcnt henb
    cases e with
    | enqueue =>
      have hwf' : traceWF (pending + 1) es = true := hwf
      have h1 : (database_scan_or_load_enqueue s).isShuttingDown = false := by
        simpa [database_scan_or_load_enqueue] using hsd
      have h2 : (database_scan_or_load_enqueue s).numDatabaseUpdateActive
          = ((pending + 1 : Nat) : Int) := by
        simp [database_scan_or_load_enqueue, hcnt]
      have h3 : ((database_scan_or_load_enqueue s).updateActionEnabled = true
          ↔ pending + 1 = 0) := by
        simp [database_scan_or_load_enqueue]
      have hmain := ih (database_scan_or_load_enqueue s) (pending + 1) hwf' h1 h2 h3
      refine ⟨?_, ?_⟩
      · show (app_run (database_scan_or_load_enqueue s) es).numDatabaseUpdateActive = _
        rw [hmain.1]
        simp only [numEnqueues, numFinishes]
        omega
      · show (app_run (database_scan_or_load_enqueue s) es).updateActionEnabled = true ↔ _
        rw [hmain.2]
        simp only [numEnqueues, numFinishes]
        omega
    | cancel =>
      have hwf' : traceWF pending es = true := hwf
      have h1 : (action_cancel_update_database s).isShuttingDown = false := by
        simpa [action_cancel_update_database] using hsd
      have h2 : (action_cancel_update_database s).numDatabaseUpdateActive
          = (pending : Int) := by
        simpa [action_cancel_update_database] using hcnt
      have h3 : ((action_cancel_update_database s).updateActionEnabled = true
          ↔ pending = 0) := by
        simpa [action_cancel_update_database] using henb
      have hmain := ih (action_cancel_update_database s) pending hwf' h1 h2 h3
      refine ⟨?_, ?_⟩
      · show (app_run (action_cancel_update_database s) es).numDatabaseUpdateActive = _
        rw [hmain.1]
        simp only [numEnqueues, numFinishes]
      · show (app_run (action_cancel_update_database s) es).updateActionEnabled = true ↔ _
        rw [hmain.2]
        simp only [numEnqueues, numFinishes]
    | finish d =>
      have hwf0 : (decide (0 < pending) && traceWF (pending - 1) es) = true := hwf
      have hpos : 0 < pending := by
        have := (Bool.and_eq_true _ _).mp hwf0
        exact of_decide_eq_true this.1
      have hwf' : traceWF (pending - 1) es = true :=
        ((Bool.and_eq_true _ _).mp hwf0).2
      have h1 : (on_database_update_finished s d).isShuttingDown = false := by
        rw [on_finished_isShuttingDown]; exact hsd
      have h2 : (on_database_update_finished s d).numDatabaseUpdateActive
          = ((pending - 1 : Nat) : Int) := by
        simp only [on_database_update_finished, hsd, Bool.false_eq_true, if_false, hcnt]
        omega
      have h3 : ((on_database_update_finished s d).updateActionEnabled = true
          ↔ pending - 1 = 0) := by
        simp only [on_database_update_finished, hsd, Bool.false_eq_true, if_false, hcnt]
        by_cases hp : (pending : Int) - 1 = 0
        · rw [if_pos hp]
          constructor
          · intro _
            omega
          · intro _
            rfl
        · rw [if_neg hp]
          rw [henb]
          omega
      have hmain := ih (on_database_update_finished s d) (pending - 1) hwf' h1 h2 h3
      refine ⟨?_, ?_⟩
      · show (app_run (on_database_update_finished s d) es).numDatabaseUpdateActive = _
        rw [hmain.1]
        simp only [numEnqueues, numFinishes]
        omega
      · show (app_run (on_database_update_finished s d) es).updateActionEnabled = true ↔ _
        rw [hmain.2]
        simp only [numEnqueues, numFinishes]
        omega

/-- C6 (confirmed): over any well-formed trace of the running application, every
enqueue increments and every processed completion decrements the active-request
counter — so the counter always equals the number of requests enqueued but not yet
finished — and the `update_database` action is enabled exactly when that number is
zero, i.e. it stays disabled from the first enqueue until the counter returns to
zero. -/
theorem c6_counter_tracks_requests (es : List AppEvent)
    (h : traceWF 0 es = true) :
    (app_run initial_app_state es).numDatabaseUpdateActive
        = (numEnqueues es : Int) - (numFinishes es : Int)
    ∧ ((app_run initial_app_state es).updateActionEnabled = true
        ↔ numEnqueues es = numFinishes es) := by
  have hmain := app_run_counter_invariant es initial_app_state 0 h rfl rfl
    (by simp [initial_app_state])
  refine ⟨?_, ?_⟩
  · rw [hmain.1]
    omega
  · rw [hmain.2]
    omega

/-- Witness for C6: after one enqueue and its completion the counter is back to
`1 - 1` and the `update_database` action is enabled again. -/
theorem c6_witness :
    (app_run initial_app_state
        [AppEvent.enqueue, AppEvent.finish (db_new 1)]).numDatabaseUpdateActive
      = (numEnqueues [AppEvent.enqueue, AppEvent.finish (db_new 1)] : Int)
        - (numFinishes [AppEvent.enqueue, AppEvent.finish (db_new 1)] : Int)
    ∧ ((app_run initial_app_state
          [AppEvent.enqueue, AppEvent.finish (db_new 1)]).updateActionEnabled = true
        ↔ numEnqueues [AppEvent.enqueue, AppEvent.finish (db_new 1)]
            = numFinishes [AppEvent.enqueue, AppEvent.finish (db_new 1)]) :=
  c6_counter_tracks_requests [AppEvent.enqueue, AppEvent.finish (db_new 1)] (by decide)

/-- C7 (counterexample to the claim as stated): not every access to the
published-store reference and the active-request counter happens under the state
mutex — the counter increment in `database_scan_or_load_enqueue` (line 271) and the
published-store reads in `fsearch_application_get_num_db_entries` (line 1016) and
`fsearch_application_get_db` (line 1022) are performed without taking it. -/
theorem c7_counterexample :
    ¬ (∀ ops ∈ appSharedStateFunctions, accessesLocked 0 ops = true) := by
  decide

/-- C7 (amended): the published-store swap and the counter decrement in
`on_database_update_finished` — and the locked section of `database_pool_func` —
run while the state mutex is held, but the counter increment in
`database_scan_or_load_enqueue` and the published-store reads in
`fsearch_application_get_num_db_entries` and `fsearch_application_get_db` do not
acquire the mutex themselves (locking there is left to callers via
`fsearch_application_state_lock`). -/
theorem c7_locking_discipline :
    accessesLocked 0 on_database_update_finished_ops = true
    ∧ accessesLocked 0 database_pool_func_ops = true
    ∧ accessesLocked 0 database_scan_or_load_enqueue_ops = false
    ∧ accessesLocked 0 fsearch_application_get_num_db_entries_ops = false
    ∧ accessesLocked 0 fsearch_application_get_db_ops = false := by
  decide

end Fsearch
